import Mathlib

/-!
Verification of the `tkt` tool (src/tkt.py): a shallow embedding of its
configuration resolution, pattern extraction, repository-state driving and
ticket-log appending, together with theorems settling the specification
claims.

Modelling conventions:
* Python strings are Lean `String`s; `None` is `Option.none`.
* Python truthiness of an optional string (`None` and `""` are falsy) is
  `truthyOpt`.
* Python exceptions are the `PyExc` type; fallible code returns `Except`.
* The regular-expression engine models the fragment of Python `re` the
  source uses: literal characters, `.` (any character except newline),
  `\d`, greedy `*` and `+`, and a single capture group, with
  `re.search`'s leftmost, backtracking, greedy semantics.
-/

/-- Abstract syntax of the regular-expression fragment used by the source:
literals, `.`, `\d`, concatenation, greedy `*` and `+`, one capture group. -/
inductive Re where
  | lit (c : Char)
  | dot
  | digit
  | seq (a b : Re)
  | star (a : Re)
  | plus (a : Re)
  | group (a : Re)
deriving DecidableEq

/-- Size of a pattern, used to pick an ample fuel for the matcher. -/
def reSize : Re → Nat
  | .lit _ => 1
  | .dot => 1
  | .digit => 1
  | .seq a b => reSize a + reSize b + 1
  | .star a => reSize a + 1
  | .plus a => reSize a + 2
  | .group a => reSize a + 1

/-- Backtracking matcher in continuation-passing style, mirroring Python's
`re` engine on the supported fragment.  `cap` is the value of the single
capture group so far (`none` = group did not participate).  The
continuation receives the remaining input and the capture; the overall
result is `none` on failure and `some cap` on the first success in
backtracking order.  Greedy `star` tries to consume more input first.
`fuel` only bounds recursion depth; callers pass an ample amount. -/
def mat : Nat → Re → List Char → Option (List Char) →
    (List Char → Option (List Char) → Option (Option (List Char))) →
    Option (Option (List Char))
  | 0, _, _, _, _ => none
  | _ + 1, .lit c, s, cap, k =>
    match s with
    | [] => none
    | x :: rest => if x = c then k rest cap else none
  | _ + 1, .dot, s, cap, k =>
    match s with
    | [] => none
    | x :: rest => if x = '\n' then none else k rest cap
  | _ + 1, .digit, s, cap, k =>
    match s with
    | [] => none
    | x :: rest => if x.isDigit then k rest cap else none
  | fuel + 1, .seq a b, s, cap, k =>
    mat fuel a s cap (fun s2 c2 => mat fuel b s2 c2 k)
  | fuel + 1, .star a, s, cap, k =>
    (match mat fuel a s cap (fun s2 c2 =>
        if s2.length < s.length then mat fuel (.star a) s2 c2 k else none) with
     | some r => some r
     | none => k s cap)
  | fuel + 1, .plus a, s, cap, k =>
    mat fuel a s cap (fun s2 c2 => mat fuel (.star a) s2 c2 k)
  | fuel + 1, .group a, s, cap, k =>
    mat fuel a s cap (fun s2 _ => k s2 (some (s.take (s.length - s2.length))))

/-- Accepting continuation: a match may end anywhere (`re.search`). -/
def accept : List Char → Option (List Char) → Option (Option (List Char)) :=
  fun _ cap => some cap

/-- `re.search`: try a match starting at every position, leftmost first. -/
def searchFrom (fuel : Nat) (r : Re) : List Char → Option (Option (List Char))
  | [] => mat fuel r [] none accept
  | c :: rest =>
    match mat fuel r (c :: rest) none accept with
    | some cap => some cap
    | none => searchFrom fuel r rest

/-- Ample fuel for matching `r` against `s`. -/
def reFuel (r : Re) (s : List Char) : Nat := (s.length + 2) * (reSize r + 2)

/-- `pattern.search(s)` returning `none` (no match), `some none` (match,
group did not participate) or `some (some g)` (match with group `g`). -/
def reSearch (r : Re) (s : List Char) : Option (Option (List Char)) :=
  searchFrom (reFuel r s) r s

/-- A compiled pattern as Python's `re.Pattern`: the source text (for the
`.pattern` attribute used in diagnostics) plus the parsed syntax. -/
structure RePattern where
  pattern : String
  re : Re
deriving DecidableEq

/-- The fixed directory-name pattern `.*/(.*)` compiled at several places
in the source (`get_source_dir`, `pull_repository`, `checkout_branch`,
`create_branch`). -/
def lastSegRe : RePattern :=
  ⟨".*/(.*)", .seq (.star .dot) (.seq (.lit '/') (.group (.star .dot)))⟩

/-- A sequence of literal characters followed by a tail pattern. -/
def litsThen (cs : List Char) (tail : Re) : Re :=
  cs.foldr (fun c acc => .seq (.lit c) acc) tail

/-- The branch-derivation example pattern from the spec, `.*/issues/(\d+)`. -/
def issuesRe : RePattern :=
  ⟨".*/issues/(\\d+)", .seq (.star .dot) (litsThen "/issues/".data (.group (.plus .digit)))⟩

/-- Python exception values distinguished by the embedding.  `exc msg`
models `Exception(msg)`; the others model built-in exception types raised
by library calls (their message text is not modelled). -/
inductive PyExc where
  | exc (msg : String)
  | keyError (name : String)
  | attributeError
  | typeError
deriving DecidableEq

/-- A value stored in the `branch_name_regex` field.  Python is dynamically
typed: `load_config` stores a compiled `re.Pattern`, while `parse_args`
stores the raw command-line string (never compiled by the source). -/
inductive RegexVal where
  | compiled (p : RePattern)
  | raw (s : String)
deriving DecidableEq

/-- Python truthiness of an optional string: `None` and `""` are falsy. -/
def truthyOpt : Option String → Bool
  | none => false
  | some s => s ≠ ""

/-- Python truthiness of a `branch_name_regex` value: compiled patterns are
always truthy objects; a raw string is falsy iff empty. -/
def RegexVal.truthy : RegexVal → Bool
  | .compiled _ => true
  | .raw s => s ≠ ""

/-- Python `lhs or rhs` on optional strings. -/
def pyOrStr (a b : Option String) : Option String :=
  match a with
  | some s => if s = "" then b else some s
  | none => b

/-- Python `lhs or rhs` on optional regex values. -/
def pyOrRegex (a b : Option RegexVal) : Option RegexVal :=
  match a with
  | some v => if v.truthy then some v else b
  | none => b

/-- `Path.expanduser()`: a leading `~` is replaced by the home directory.
(The `~user` form is not modelled; no claim exercises it.) -/
def expanduser (home : String) (p : String) : String :=
  if p = "~" then home
  else
    match p.data with
    | '~' :: '/' :: rest => home ++ String.mk ('/' :: rest)
    | _ => p

/-- `pathlib` joining `parent / seg` for the shapes the source produces:
an empty segment is dropped (`Path('/a') / '' == Path('/a')`), an absolute
segment replaces the parent. -/
def pathJoin (p s : String) : String :=
  if s = "" then p
  else if s.data.head? = some '/' then s
  else if p.data.getLast? = some '/' then p ++ s
  else p ++ "/" ++ s

/-- Python `str()`/f-string formatting of an optional string: `None`
formats as the text `"None"`. -/
def pyStr : Option String → String
  | none => "None"
  | some s => s

/-- The `TicketConfig` dataclass (src/tkt.py lines 13-23).  Every field is
optional at this level: `parse_args` fills any field with `None` when the
flag is absent, and only `validate` enforces presence. -/
structure TicketConfig where
  local_repository_parent_dir : Option String
  branch_name_regex : Option RegexVal
  ticket_file_path : Option String
  ticket_url : Option String
  remote_repository_url : Option String
  main_branch_name : Option String
deriving DecidableEq

/-- `TicketConfig.combine` (lines 25-52): field-wise Python `or` with `lhs`
winning when truthy, and `.expanduser()` applied to the two path-valued
fields afterwards.  `home` makes the source's ambient home directory
explicit.  (If both sides of a path field are `None`, Python would raise
`AttributeError` on `.expanduser()`; that state is unreachable because
`load_config` requires both path fields, and is modelled as `none`.) -/
def TicketConfig.combine (home : String) (lhs rhs : TicketConfig) : TicketConfig :=
  { local_repository_parent_dir :=
      (pyOrStr lhs.local_repository_parent_dir rhs.local_repository_parent_dir).map
        (expanduser home)
  , branch_name_regex := pyOrRegex lhs.branch_name_regex rhs.branch_name_regex
  , ticket_file_path :=
      (pyOrStr lhs.ticket_file_path rhs.ticket_file_path).map (expanduser home)
  , ticket_url := pyOrStr lhs.ticket_url rhs.ticket_url
  , remote_repository_url := pyOrStr lhs.remote_repository_url rhs.remote_repository_url
  , main_branch_name := pyOrStr lhs.main_branch_name rhs.main_branch_name }

/-- The filesystem and process environment the program consults, plus the
outcome of each git invocation (one oracle per call site of `run_git`) and
the stderr text a failing git command produces. -/
structure Env where
  home : String
  isDir : String → Bool
  isFile : String → Bool
  compile : String → Except PyExc RePattern
  store : Option (String → Option String)
  cloneOk : Bool
  pullOk : Bool
  checkoutMainOk : Bool
  createOk : Bool
  checkoutTicketOk : Bool
  gitStderrText : String

/-- `TicketConfig.validate` (lines 54-65): fail-fast checks in source
order; the first failing check raises and no later check runs.  A `None`
path field would raise `AttributeError` on `.expanduser()`. -/
def TicketConfig.validate (env : Env) (cfg : TicketConfig) : Except PyExc TicketConfig :=
  if ¬ truthyOpt cfg.remote_repository_url then
    .error (.exc "remote_repository_url was not configured")
  else if ¬ (cfg.branch_name_regex.elim false RegexVal.truthy) then
    .error (.exc "branch_name_regex was not configured")
  else
    match cfg.local_repository_parent_dir with
    | none => .error .attributeError
    | some p =>
      if ¬ env.isDir (expanduser env.home p) then
        .error (.exc ("directory not found: " ++ p ++ "."))
      else
        match cfg.ticket_file_path with
        | none => .error .attributeError
        | some f =>
          if ¬ env.isFile (expanduser env.home f) then
            .error (.exc ("file not found: " ++ f ++ "."))
          else .ok cfg

/-- `TicketConfig.get_branch_name` (lines 67-72): search the configured
pattern in the ticket URL; return group 1 when it matched and is
non-empty, otherwise raise carrying the pattern source and the URL.  A raw
(uncompiled) regex value has no `.search` (`AttributeError`); a `None`
ticket URL makes `Pattern.search` raise `TypeError`. -/
def TicketConfig.get_branch_name (cfg : TicketConfig) : Except PyExc String :=
  match cfg.branch_name_regex with
  | none => .error .attributeError
  | some (.raw _) => .error .attributeError
  | some (.compiled p) =>
    match cfg.ticket_url with
    | none => .error .typeError
    | some url =>
      match reSearch p.re url.data with
      | some (some g) =>
        if g ≠ [] then .ok (String.mk g)
        else .error (.exc ("the regex '" ++ p.pattern ++
          "' did not match the ticket URL: '" ++ url ++ "'"))
      | some none =>
        .error (.exc ("the regex '" ++ p.pattern ++
          "' did not match the ticket URL: '" ++ url ++ "'"))
      | none =>
        .error (.exc ("the regex '" ++ p.pattern ++
          "' did not match the ticket URL: '" ++ url ++ "'"))

/-- `TicketConfig.get_source_dir` (lines 74-77): apply `.*/(.*)` to the
remote URL and join the parent directory with the captured group.  No
emptiness check is made on the group.  A failed search makes `.group(1)`
raise `AttributeError`; a `None` remote URL raises `TypeError`. -/
def TicketConfig.get_source_dir (cfg : TicketConfig) : Except PyExc String :=
  match cfg.remote_repository_url with
  | none => .error .typeError
  | some url =>
    match reSearch lastSegRe.re url.data with
    | none => .error .attributeError
    | some none => .error .typeError
    | some (some g) =>
      match cfg.local_repository_parent_dir with
      | none => .error .typeError
      | some p => .ok (pathJoin p (String.mk g))

/-- `read_optional` inside `load_config` (lines 87-92): a key present with
a non-empty value yields that value, otherwise `None`. -/
def read_optional (sect : String → Option String) (name : String) : Option String :=
  match sect name with
  | some v => if v = "" then none else some v
  | none => none

/-- `read_required` inside `load_config` (lines 94-98): a missing key or an
empty value raises `KeyError(name)`. -/
def read_required (sect : String → Option String) (name : String) :
    Except PyExc String :=
  match sect name with
  | some v => if v = "" then .error (.keyError name) else .ok v
  | none => .error (.keyError name)

/-- `compile_re` inside `load_config` (lines 81-85): `None` or an empty
string raises `Exception("empty regex")`, otherwise the text is compiled
(compilation itself is the environment's oracle; `re.error` on a malformed
pattern is a `PyExc` from it). -/
def compile_re (compile : String → Except PyExc RePattern) (s : Option String) :
    Except PyExc RePattern :=
  match s with
  | none => .error (.exc "empty regex")
  | some v => if v = "" then .error (.exc "empty regex") else compile v

/-- `load_config` (lines 80-125).  `store` is the parsed `[main]` section of
the configuration file (`none` models a missing file or section, whose
exception is caught).  Any exception is caught and turned into `None`
(after printing, which is not modelled here).  Note the source reads the
`main_branch_name` field from the key `"remote_repository_url"`
(line 118); the embedding preserves that behavior. -/
def load_config (compile : String → Except PyExc RePattern)
    (store : Option (String → Option String)) : Option TicketConfig :=
  match store with
  | none => none
  | some sect =>
    match read_required sect "local_repository_parent_dir" with
    | .error _ => none
    | .ok parent =>
      match compile_re compile (read_optional sect "branch_name_regex") with
      | .error _ => none
      | .ok pat =>
        match read_required sect "ticket_file_path" with
        | .error _ => none
        | .ok tfp =>
          some { local_repository_parent_dir := some parent
               , branch_name_regex := some (.compiled pat)
               , ticket_file_path := some tfp
               , ticket_url := read_optional sect "ticket_url"
               , remote_repository_url := read_optional sect "remote_repository_url"
               , main_branch_name := read_optional sect "remote_repository_url" }

/-- Parsed command-line arguments (lines 135-189).  `--ticket-url` is
`required=True` for `argparse`, so it is the only non-optional field. -/
structure Args where
  local_repository_parent_dir : Option String
  branch_name_regex : Option String
  ticket_file_path : Option String
  ticket_url : String
  remote_repository_url : Option String
  main_branch_name : Option String

/-- `parse_args` (lines 191-198): builds a `TicketConfig` from the raw
argument strings; the regex flag is stored uncompiled. -/
def parse_args (a : Args) : TicketConfig :=
  { local_repository_parent_dir := a.local_repository_parent_dir
  , branch_name_regex := a.branch_name_regex.map RegexVal.raw
  , ticket_file_path := a.ticket_file_path
  , ticket_url := some a.ticket_url
  , remote_repository_url := a.remote_repository_url
  , main_branch_name := a.main_branch_name }

/-- `get_config` (lines 201-210): load the file configuration (exiting with
status 1 when it fails), combine it with `parse_args` — the file
configuration on the left — and validate; a validation exception prints
and exits with status 1.  The error value is the exit code. -/
def get_config (env : Env) (args : Args) : Except Nat TicketConfig :=
  match load_config env.compile env.store with
  | none => .error 1
  | some file_cfg =>
    match (TicketConfig.combine env.home file_cfg (parse_args args)).validate env with
    | .error _ => .error 1
    | .ok cfg => .ok cfg

/-- Observable events of one run: lines printed, each repository-operation
function invoked (with its arguments), and the log append. -/
inductive Event where
  | printed (s : String)
  | cloneCall (url : Option String) (parentDir : Option String)
  | pullCall (url : Option String) (parentDir : Option String)
  | checkoutCall (branch : Option String) (url : Option String) (parentDir : Option String)
  | createCall (branch : String) (url : Option String) (parentDir : Option String)
  | appendCall (path : String) (record : String)
deriving DecidableEq

/-- `run_git` (lines 213-230): runs the command and returns `True`/`False`
on a zero/non-zero exit status, printing the command's stderr on failure
when `show_error_output` is set.  If `subprocess.run` itself raises (it
raises `TypeError` when an argument is `None`), `result` is still `None`
and the handler's `result.stderr` raises `AttributeError` — but only when
`show_error_output` is set; otherwise the failure is swallowed and
`False` returned.  `outcome` is the command's exit-status oracle,
`stderrText` its stderr text. -/
def run_git (outcome : Bool) (stderrText : String) (args : List (Option String))
    (show_error_output : Bool) : List Event × Except PyExc Bool :=
  if args.contains none then
    if show_error_output then ([], .error .attributeError)
    else ([], .ok false)
  else if outcome then ([], .ok true)
  else if show_error_output then ([.printed ("error: " ++ stderrText)], .ok false)
  else ([], .ok false)

/-- `clone_repository` (lines 233-238): announce, then
`git clone <url>` with `show_error_output=False`. -/
def clone_repository (outcome : Bool) (stderrText : String) (remote_url : Option String)
    (parent_dir : Option String) : List Event × Except PyExc Bool :=
  let evs := [Event.printed "attempting to clone repository...",
              Event.cloneCall remote_url parent_dir]
  let (evs2, r) := run_git outcome stderrText [some "clone", remote_url] false
  (evs ++ evs2, r)

/-- The repository directory computed by `pull_repository`,
`checkout_branch` and `create_branch`: `.*/(.*)` applied to the remote URL
joined under the parent directory.  A failed search raises
`AttributeError` on `.group(1)`; a `None` remote or parent raises
`TypeError`. -/
def repoDirOf (remote_url : Option String) (parent_dir : Option String) :
    Except PyExc String :=
  match remote_url with
  | none => .error .typeError
  | some url =>
    match reSearch lastSegRe.re url.data with
    | none => .error .attributeError
    | some none => .error .typeError
    | some (some g) =>
      match parent_dir with
      | none => .error .typeError
      | some p => .ok (pathJoin p (String.mk g))

/-- `pull_repository` (lines 241-249): announce, derive the repository
directory, then `git pull` there with `show_error_output=False`. -/
def pull_repository (outcome : Bool) (stderrText : String) (remote_url : Option String)
    (parent_dir : Option String) : List Event × Except PyExc Bool :=
  let evs := [Event.printed "attempting to pull repository...",
              Event.pullCall remote_url parent_dir]
  match repoDirOf remote_url parent_dir with
  | .error e => (evs, .error e)
  | .ok _ =>
    let (evs2, r) := run_git outcome stderrText [some "pull"] false
    (evs ++ evs2, r)

/-- `checkout_branch` (lines 252-259): derive the repository directory,
then `git checkout <branch>` with the default `show_error_output=True`. -/
def checkout_branch (outcome : Bool) (stderrText : String) (remote_url : Option String)
    (main_branch_name : Option String) (parent_dir : Option String) :
    List Event × Except PyExc Bool :=
  let evs := [Event.checkoutCall main_branch_name remote_url parent_dir]
  match repoDirOf remote_url parent_dir with
  | .error e => (evs, .error e)
  | .ok _ =>
    let (evs2, r) := run_git outcome stderrText [some "checkout", main_branch_name] true
    (evs ++ evs2, r)

/-- `create_branch` (lines 262-270): derive the repository directory, then
`git checkout -b <branch>` with `show_error_output=True`. -/
def create_branch (outcome : Bool) (stderrText : String) (remote_url : Option String)
    (branch_name : String) (parent_dir : Option String) :
    List Event × Except PyExc Bool :=
  let evs := [Event.createCall branch_name remote_url parent_dir]
  match repoDirOf remote_url parent_dir with
  | .error e => (evs, .error e)
  | .ok _ =>
    let (evs2, r) := run_git outcome stderrText
      [some "checkout", some "-b", some branch_name] true
    (evs ++ evs2, r)

/-- The exact block `append_to_ticket_file` writes (lines 274-278): four
newline-terminated lines, no further separator.  The ticket and remote
URLs are formatted with Python's f-string semantics (`None` prints as
`"None"`). -/
def ticketRecord (ticket_name : String) (source_dir : String)
    (ticket_url : Option String) (remote_url : Option String) : String :=
  "** TODO Ticket: " ++ ticket_name ++
  "\n   Source: " ++ source_dir ++
  "\n   Ticket: " ++ pyStr ticket_url ++
  "\n   Remote: " ++ pyStr remote_url ++ "\n"

/-- `append_to_ticket_file` (lines 272-281): open the file in append mode,
write the record block at the end, print the path.  `fileContents` is the
file's contents before the call; the result is the new contents plus the
run's events.  Opening a `None` path raises `TypeError`. -/
def append_to_ticket_file (fileContents : String) (ticket_file_path : Option String)
    (remote_url : Option String) (ticket_name : String) (ticket_url : Option String)
    (source_dir : String) : Except PyExc (String × List Event) :=
  match ticket_file_path with
  | none => .error .typeError
  | some path =>
    let s := ticketRecord ticket_name source_dir ticket_url remote_url
    .ok (fileContents ++ s,
         [Event.appendCall path s, Event.printed ("updated: " ++ path)])

/-- Outcome of one `main()` run: `exited code` models `sys.exit(code)`
escaping the `except Exception` handler (`SystemExit` is not an
`Exception`); `caught e` models the handler printing a diagnostic and
returning normally; `finished` is a run that reaches the end. -/
inductive MainOutcome where
  | exited (code : Nat)
  | caught (e : PyExc)
  | finished
deriving DecidableEq

/-- Process exit status implied by a `main()` outcome: only `sys.exit`
sets a code; both normal completion and a caught exception return from
`main` and the process exits with status 0. -/
def MainOutcome.exitCode : MainOutcome → Nat
  | .exited n => n
  | .caught _ => 0
  | .finished => 0

/-- `main` (lines 284-313): resolve the configuration, derive the branch
name, clone-or-pull, checkout mainline, create-or-checkout the ticket
branch (each step's boolean result is discarded), then append to the
ticket log.  Any `Exception` escaping a step is caught at the top,
aborting the remaining steps.  `get_branch_name` is pure and is called
four times in the source; it is evaluated once here.  The result is the
event trace together with the outcome. -/
def mainRun (env : Env) (args : Args) : List Event × MainOutcome :=
  match get_config env args with
  | .error code => ([], .exited code)
  | .ok cfg =>
    match cfg.get_branch_name with
    | .error e => ([], .caught e)
    | .ok branch_name =>
      let remote := cfg.remote_repository_url
      let parent := cfg.local_repository_parent_dir
      let (evs1, r1) := clone_repository env.cloneOk env.gitStderrText remote parent
      match r1 with
      | .error e => (evs1, .caught e)
      | .ok cloneRes =>
        let (evs2, r2) :=
          if cloneRes then ([], Except.ok true)
          else pull_repository env.pullOk env.gitStderrText remote parent
        match r2 with
        | .error e => (evs1 ++ evs2, .caught e)
        | .ok _ =>
          let (evs3, r3) := checkout_branch env.checkoutMainOk env.gitStderrText remote
            cfg.main_branch_name parent
          match r3 with
          | .error e => (evs1 ++ evs2 ++ evs3, .caught e)
          | .ok _ =>
            let (evs4, r4) := create_branch env.createOk env.gitStderrText remote
              branch_name parent
            match r4 with
            | .error e => (evs1 ++ evs2 ++ evs3 ++ evs4, .caught e)
            | .ok created =>
              let (evs5, r5) :=
                if created then ([], Except.ok true)
                else checkout_branch env.checkoutTicketOk env.gitStderrText remote
                  (some branch_name) parent
              match r5 with
              | .error e => (evs1 ++ evs2 ++ evs3 ++ evs4 ++ evs5, .caught e)
              | .ok _ =>
                match cfg.get_source_dir with
                | .error e => (evs1 ++ evs2 ++ evs3 ++ evs4 ++ evs5, .caught e)
                | .ok src =>
                  match append_to_ticket_file "" cfg.ticket_file_path remote branch_name
                    cfg.ticket_url src with
                  | .error e => (evs1 ++ evs2 ++ evs3 ++ evs4 ++ evs5, .caught e)
                  | .ok (_, evs6) =>
                    (evs1 ++ evs2 ++ evs3 ++ evs4 ++ evs5 ++ evs6, .finished)

/-- Pure semantics of greedy `.*` with continuation `k`: try the longest
consumption first, never crossing a newline. -/
def starDotSem (k : List Char → Option (List Char) → Option (Option (List Char)))
    (cap : Option (List Char)) : List Char → Option (Option (List Char))
  | [] => k [] cap
  | c :: rest =>
    if c = '\n' then k (c :: rest) cap
    else
      match starDotSem k cap rest with
      | some r => some r
      | none => k (c :: rest) cap

/-- Pure semantics of `.*/(.*)` matched at one starting position. -/
def lastSegSem : List Char → Option (Option (List Char))
  | [] => none
  | c :: rest =>
    if c = '\n' then none
    else
      match lastSegSem rest with
      | some r => some r
      | none =>
        if c = '/' then some (some (rest.takeWhile (fun x => x != '\n'))) else none

/-- Pure semantics of `re.search` with `.*/(.*)`. -/
def lastSegSearch : List Char → Option (Option (List Char))
  | [] => none
  | c :: rest =>
    match lastSegSem (c :: rest) with
    | some r => some r
    | none => lastSegSearch rest

/-- The suffix of `s` after its last `'/'` (meaningful when `'/' ∈ s`). -/
def afterLastSlash : List Char → List Char
  | [] => []
  | c :: rest =>
    if '/' ∈ rest then afterLastSlash rest
    else if c = '/' then rest else []

/-- `needle` is a prefix of `s`. -/
def isPre : List Char → List Char → Bool
  | [], _ => true
  | _ :: _, [] => false
  | c :: cs, x :: xs => x = c && isPre cs xs

/-- `needle` occurs as a contiguous segment of `s`. -/
def containsSeg (needle : List Char) : List Char → Bool
  | [] => isPre needle []
  | s@(_ :: rest) => isPre needle s || containsSeg needle rest

/-- Pure semantics of the tail `/(.*)` of the directory pattern at one
position: the head must be `'/'` and the group greedily captures up to the
next newline. -/
def lastSegTailSem : List Char → Option (Option (List Char))
  | [] => none
  | c :: u =>
    if c = '/' then some (some (u.takeWhile (fun x => x != '\n'))) else none

instance {e a : Type} [DecidableEq e] [DecidableEq a] : DecidableEq (Except e a) := fun
  | .ok x, .ok y =>
    if h : x = y then .isTrue (by rw [h]) else .isFalse (fun hh => h (by injection hh))
  | .error x, .error y =>
    if h : x = y then .isTrue (by rw [h]) else .isFalse (fun hh => h (by injection hh))
  | .ok _, .error _ => .isFalse (fun hh => Except.noConfusion hh)
  | .error _, .ok _ => .isFalse (fun hh => Except.noConfusion hh)

/-- Split a character list at newlines (to state line structure of the
log record; `String.splitOn` does not reduce in the kernel). -/
def splitNl : List Char -> List (List Char)
  | [] => [[]]
  | c :: rest =>
    if c = '\n' then [] :: splitNl rest
    else
      match splitNl rest with
      | [] => [[c]]
      | l :: ls => (c :: l) :: ls

/-- Event classifiers used to state which steps a run executed. -/
def Event.isAppend : Event → Bool
  | .appendCall _ _ => true
  | _ => false

def Event.isCheckout : Event → Bool
  | .checkoutCall _ _ _ => true
  | _ => false

/-- Compile oracle for concrete runs: every text compiles, to the issues
resulting pattern matters). -/
def compileIssues : String → Except PyExc RePattern :=
  fun s => .ok ⟨s, issuesRe.re⟩

/-- A configuration store holding only the three required keys. -/
def storeRequired : String → Option String := fun k =>
  if k = "local_repository_parent_dir" then some "/repos"
  else if k = "branch_name_regex" then some ".*/issues/(\\d+)"
  else if k = "ticket_file_path" then some "/tickets.org"
  else none

/-- Store that also fixes its own ticket URL (used against C1). -/
def storeC1 : String → Option String := fun k =>
  if k = "ticket_url" then some "https://file-ticket/issues/1"
  else storeRequired k

/-- Store with a `main_branch_name` key and no `remote_repository_url`. -/
def storeC2a : String → Option String := fun k =>
  if k = "main_branch_name" then some "develop"
  else storeRequired k

/-- Store with a `remote_repository_url` key and no `main_branch_name`. -/
def storeC2b : String → Option String := fun k =>
  if k = "remote_repository_url" then some "https://host/r"
  else storeRequired k

/-- A permissive filesystem environment around a given store. -/
def mkEnv (store : Option (String → Option String)) (cloneOk pullOk : Bool)
    (checkoutMainOk createOk checkoutTicketOk : Bool) : Env :=
  { home := "/home/u"
  , isDir := fun _ => true
  , isFile := fun _ => true
  , compile := compileIssues
  , store := store
  , cloneOk := cloneOk, pullOk := pullOk, checkoutMainOk := checkoutMainOk
  , createOk := createOk, checkoutTicketOk := checkoutTicketOk
  , gitStderrText := "fatal: git failed" }

def envC1 : Env := mkEnv (some storeC1) true true true true true

def argsC1 : Args :=
  { local_repository_parent_dir := none
  , branch_name_regex := none
  , ticket_file_path := none
  , ticket_url := "https://cli-ticket/issues/2"
  , remote_repository_url := some "https://host/repo"
  , main_branch_name := some "main" }

def envC8 : Env := mkEnv (some storeRequired) true true true true true

def argsC8 : Args :=
  { local_repository_parent_dir := none
  , branch_name_regex := none
  , ticket_file_path := none
  , ticket_url := "https://t/issues/7"
  , remote_repository_url := some "https://host/repo"
  , main_branch_name := none }

/-- The configuration `get_config envC8 argsC8` resolves to. -/
def cfgC8 : TicketConfig :=
  { local_repository_parent_dir := some "/repos"
  , branch_name_regex := some (.compiled ⟨".*/issues/(\\d+)", issuesRe.re⟩)
  , ticket_file_path := some "/tickets.org"
  , ticket_url := some "https://t/issues/7"
  , remote_repository_url := some "https://host/repo"
  , main_branch_name := none }

def envC9 : Env := mkEnv (some storeRequired) false true true true true

def argsC9 : Args :=
  { local_repository_parent_dir := none
  , branch_name_regex := none
  , ticket_file_path := none
  , ticket_url := "https://t/issues/7"
  , remote_repository_url := some "repo"
  , main_branch_name := some "main" }

/-- The configuration `get_config envC9 argsC9` resolves to. -/
def cfgC9 : TicketConfig :=
  { local_repository_parent_dir := some "/repos"
  , branch_name_regex := some (.compiled ⟨".*/issues/(\\d+)", issuesRe.re⟩)
  , ticket_file_path := some "/tickets.org"
  , ticket_url := some "https://t/issues/7"
  , remote_repository_url := some "repo"
  , main_branch_name := some "main" }

/-- Config whose remote URL contains a newline and ends with a slash. -/
def cfgC10 : TicketConfig :=
  { local_repository_parent_dir := some "/p"
  , branch_name_regex := some (.compiled issuesRe)
  , ticket_file_path := some "/t.org"
  , ticket_url := some "https://t/issues/5"
  , remote_repository_url := some "a/b\nc/"
  , main_branch_name := some "main" }

def envTrue : Env := mkEnv none true true true true true

/-- Config with the issues pattern and the spec's positive example URL. -/
def cfgC5 : TicketConfig :=
  { local_repository_parent_dir := some "/repos"
  , branch_name_regex := some (.compiled issuesRe)
  , ticket_file_path := some "/t.org"
  , ticket_url := some "https://tracker.example.com/issues/4821"
  , remote_repository_url := some "https://host/r"
  , main_branch_name := some "main" }

/-- Config with the issues pattern and a URL without `/issues/`. -/
def cfgC5b : TicketConfig :=
  { cfgC5 with ticket_url := some "https://tracker.example.com/pulls/4821" }

/-- Config for the directory-derivation example. -/
def cfgC6 : TicketConfig :=
  { local_repository_parent_dir := some "/repos"
  , branch_name_regex := some (.compiled issuesRe)
  , ticket_file_path := some "/t.org"
  , ticket_url := some "https://t/issues/5"
  , remote_repository_url := some "https://example.com/proj/my-repo"
  , main_branch_name := some "main" }

/-- Config with every validated field failing at once (for C4's witness). -/
def cfgC4 : TicketConfig :=
  { local_repository_parent_dir := some "/nowhere"
  , branch_name_regex := none
  , ticket_file_path := some "/missing.org"
  , ticket_url := none
  , remote_repository_url := none
  , main_branch_name := none }

/-- Environment on which every filesystem check fails. -/
def envFalse : Env :=
  { home := "/home/u"
  , isDir := fun _ => false
  , isFile := fun _ => false
  , compile := compileIssues
  , store := none
  , cloneOk := false, pullOk := false, checkoutMainOk := false
  , createOk := false, checkoutTicketOk := false
  , gitStderrText := "fatal: git failed" }

def envC8w : Env := mkEnv (some storeRequired) false false false false false

def argsC8w : Args :=
  { argsC9 with remote_repository_url := some "https://host/repo" }

/-- The configuration `get_config envC8w argsC8w` resolves to. -/
def cfgC8w : TicketConfig :=
  { cfgC9 with remote_repository_url := some "https://host/repo" }

/-- Config with remote URL `a/b/` (slash-terminated, no newline). -/
def cfgC10w : TicketConfig :=
  { cfgC10 with remote_repository_url := some "a/b/" }

theorem mat_dot_nil (f : Nat) (cap : Option (List Char))
    (k : List Char → Option (List Char) → Option (Option (List Char))) :
    mat f .dot [] cap k = none := by
  cases f <;> simp [mat]

theorem mat_dot_newline (f : Nat) (rest : List Char) (cap : Option (List Char))
    (k : List Char → Option (List Char) → Option (Option (List Char))) :
    mat f .dot ('\n' :: rest) cap k = none := by
  cases f <;> simp [mat]

theorem mat_starDot_nil (f : Nat) (cap : Option (List Char))
    (k : List Char → Option (List Char) → Option (Option (List Char))) :
    mat (f + 1) (.star .dot) [] cap k = k [] cap := by
  simp [mat, mat_dot_nil]

theorem mat_starDot_newline (f : Nat) (rest : List Char) (cap : Option (List Char))
    (k : List Char → Option (List Char) → Option (Option (List Char))) :
    mat (f + 1) (.star .dot) ('\n' :: rest) cap k = k ('\n' :: rest) cap := by
  simp [mat, mat_dot_newline]

theorem mat_starDot_cons (f : Nat) (c : Char) (rest : List Char)
    (cap : Option (List Char))
    (k : List Char → Option (List Char) → Option (Option (List Char)))
    (hc : c ≠ '\n') (hf : 1 ≤ f) :
    mat (f + 1) (.star .dot) (c :: rest) cap k =
      match mat f (.star .dot) rest cap k with
      | some r => some r
      | none => k (c :: rest) cap := by
  obtain ⟨f', rfl⟩ : ∃ f', f = f' + 1 := ⟨f - 1, by omega⟩
  simp [mat, hc]

theorem mat_starDot_eq (s : List Char) (f : Nat) (cap : Option (List Char))
    (k : List Char → Option (List Char) → Option (Option (List Char)))
    (hf : s.length + 1 ≤ f) :
    mat f (.star .dot) s cap k = starDotSem k cap s := by
  induction s generalizing f with
  | nil =>
    obtain ⟨f', rfl⟩ : ∃ f', f = f' + 1 := ⟨f - 1, by omega⟩
    simp [mat_starDot_nil, starDotSem]
  | cons c rest ih =>
    obtain ⟨f', rfl⟩ : ∃ f', f = f' + 1 := ⟨f - 1, by omega⟩
    by_cases hc : c = '\n'
    · subst hc
      simp [mat_starDot_newline, starDotSem]
    · rw [mat_starDot_cons f' c rest cap k hc (by simp at hf; omega)]
      rw [ih f' (by simp at hf ⊢; omega)]
      simp [starDotSem, hc]

theorem starDotSem_congr (s : List Char) (cap : Option (List Char))
    (k k' : List Char → Option (List Char) → Option (Option (List Char)))
    (h : ∀ t, t <:+ s → k t cap = k' t cap) :
    starDotSem k cap s = starDotSem k' cap s := by
  induction s with
  | nil => simpa [starDotSem] using h [] (List.suffix_refl [])
  | cons c rest ih =>
    have hrest : ∀ t, t <:+ rest → k t cap = k' t cap := fun t ht =>
      h t (ht.trans (List.suffix_cons c rest))
    have hs := h (c :: rest) (List.suffix_refl _)
    by_cases hc : c = '\n'
    · subst hc
      simp [starDotSem, hs]
    · simp [starDotSem, hc, hs, ih hrest]

theorem starDotSem_none (s : List Char) (cap : Option (List Char))
    (k : List Char → Option (List Char) → Option (Option (List Char)))
    (h : ∀ t, t <:+ s → k t cap = none) :
    starDotSem k cap s = none := by
  induction s with
  | nil => simpa [starDotSem] using h [] (List.suffix_refl [])
  | cons c rest ih =>
    have hrest : ∀ t, t <:+ rest → k t cap = none := fun t ht =>
      h t (ht.trans (List.suffix_cons c rest))
    have hs := h (c :: rest) (List.suffix_refl _)
    by_cases hc : c = '\n'
    · subst hc
      simp [starDotSem, hs]
    · simp [starDotSem, hc, hs, ih hrest]

theorem starDotSem_allSome (s : List Char) (cap : Option (List Char))
    (k : List Char → Option (List Char) → Option (Option (List Char)))
    (h : ∀ t, ∃ y, k t cap = some y) :
    starDotSem k cap s = k (s.dropWhile (fun c => c != '\n')) cap := by
  induction s with
  | nil => simp [starDotSem]
  | cons c rest ih =>
    by_cases hc : c = '\n'
    · subst hc
      simp [starDotSem, List.dropWhile]
    · obtain ⟨y, hy⟩ := h (rest.dropWhile (fun c => c != '\n'))
      have hcb : (c != '\n') = true := by simp [hc]
      simp [starDotSem, hc, List.dropWhile, ih, hy, hcb]

theorem takeWhile_of_not_newline (s : List Char) (h : '\n' ∉ s) :
    s.takeWhile (fun x => x != '\n') = s := by
  induction s with
  | nil => simp
  | cons c rest ih =>
    have hc : c ≠ '\n' := fun hcc => h (hcc ▸ List.mem_cons_self c rest)
    have hcb : (c != '\n') = true := by simp [hc]
    simp only [List.takeWhile, hcb]
    rw [ih (fun hm => h (List.mem_cons_of_mem c hm))]

theorem mat_group_starDot (u : List Char) (f : Nat) (cap : Option (List Char))
    (hf : u.length + 2 ≤ f) :
    mat f (.group (.star .dot)) u cap accept =
      some (some (u.takeWhile (fun x => x != '\n'))) := by
  obtain ⟨f', rfl⟩ : ∃ f', f = f' + 1 := ⟨f - 1, by omega⟩
  have h1 : u.takeWhile (fun x => x != '\n') ++ u.dropWhile (fun x => x != '\n') = u :=
    List.takeWhile_append_dropWhile (fun x => x != '\n') u
  have h2 : (u.takeWhile (fun x => x != '\n')).length +
      (u.dropWhile (fun x => x != '\n')).length = u.length := by
    rw [← List.length_append, h1]
  have h3 : u.take (u.takeWhile (fun x => x != '\n')).length =
      u.takeWhile (fun x => x != '\n') :=
    (List.prefix_iff_eq_take.mp (List.takeWhile_prefix _)).symm
  show mat f' (.star .dot) u cap
      (fun s2 _ => accept s2 (some (u.take (u.length - s2.length)))) =
    some (some (u.takeWhile (fun x => x != '\n')))
  rw [mat_starDot_eq u f' cap _ (by omega)]
  rw [starDotSem_allSome u cap _ (fun t => ⟨some (u.take (u.length - t.length)), rfl⟩)]
  have h4 : u.length - (u.dropWhile (fun x => x != '\n')).length =
      (u.takeWhile (fun x => x != '\n')).length := by omega
  simp only [accept, h4, h3]

theorem mat_lastSegTail (t : List Char) (f : Nat) (cap : Option (List Char))
    (hf : t.length + 3 ≤ f) :
    mat f (.seq (.lit '/') (.group (.star .dot))) t cap accept = lastSegTailSem t := by
  obtain ⟨f', rfl⟩ : ∃ f', f = f' + 1 := ⟨f - 1, by omega⟩
  obtain ⟨f'', rfl⟩ : ∃ f'', f' = f'' + 1 := ⟨f' - 1, by omega⟩
  match t with
  | [] =>
    show (none : Option (Option (List Char))) = lastSegTailSem []
    rfl
  | c :: u =>
    show (if c = '/' then
        mat (f'' + 1) (.group (.star .dot)) u cap accept else none) = lastSegTailSem (c :: u)
    by_cases hc : c = '/'
    · rw [if_pos hc, mat_group_starDot u (f'' + 1) cap (by simp at hf; omega)]
      simp [lastSegTailSem, hc]
    · rw [if_neg hc]
      simp [lastSegTailSem, hc]

theorem starDotSem_lastSegTail (s : List Char) :
    starDotSem (fun t _ => lastSegTailSem t) none s = lastSegSem s := by
  induction s with
  | nil => rfl
  | cons c rest ih =>
    by_cases hc : c = '\n'
    · subst hc
      simp [starDotSem, lastSegSem, lastSegTailSem]
    · simp only [starDotSem, lastSegSem, if_neg hc]
      rw [ih]
      cases lastSegSem rest <;> rfl

theorem mat_lastSeg_eq (s : List Char) (f : Nat) (hf : s.length + 5 ≤ f) :
    mat f lastSegRe.re s none accept = lastSegSem s := by
  obtain ⟨f', rfl⟩ : ∃ f', f = f' + 1 := ⟨f - 1, by omega⟩
  show mat f' (.star .dot) s none
      (fun s2 c2 => mat f' (.seq (.lit '/') (.group (.star .dot))) s2 c2 accept) =
    lastSegSem s
  rw [mat_starDot_eq s f' none _ (by omega)]
  rw [starDotSem_congr s none _ (fun t _ => lastSegTailSem t)
      (fun t ht => mat_lastSegTail t f' none (by
        have := ht.length_le
        omega))]
  exact starDotSem_lastSegTail s

theorem searchFrom_lastSeg (s : List Char) (f : Nat) (hf : s.length + 5 ≤ f) :
    searchFrom f lastSegRe.re s = lastSegSearch s := by
  induction s with
  | nil =>
    show mat f lastSegRe.re [] none accept = none
    rw [mat_lastSeg_eq [] f (by simp at hf ⊢; omega)]
    rfl
  | cons c rest ih =>
    show (match mat f lastSegRe.re (c :: rest) none accept with
          | some cap => some cap
          | none => searchFrom f lastSegRe.re rest) = lastSegSearch (c :: rest)
    rw [mat_lastSeg_eq (c :: rest) f hf, ih (by simp at hf ⊢; omega)]
    rfl

theorem reSearch_lastSeg (s : List Char) : reSearch lastSegRe.re s = lastSegSearch s := by
  have hsize : reSize lastSegRe.re = 8 := rfl
  exact searchFrom_lastSeg s _ (by simp [reFuel, hsize]; omega)

theorem lastSegSem_shape (s : List Char) :
    lastSegSem s = none ∨ ∃ g, lastSegSem s = some (some g) := by
  induction s with
  | nil => left; rfl
  | cons c rest ih =>
    by_cases hc : c = '\n'
    · left; simp [lastSegSem, hc]
    · rcases ih with h | ⟨g, h⟩
      · by_cases hs : c = '/'
        · right
          exact ⟨rest.takeWhile (fun x => x != '\n'), by simp [lastSegSem, hc, h, hs]⟩
        · left; simp [lastSegSem, hc, h, hs]
      · right; exact ⟨g, by simp [lastSegSem, hc, h]⟩

theorem lastSegSem_no_slash (s : List Char) (h : '/' ∉ s) : lastSegSem s = none := by
  induction s with
  | nil => rfl
  | cons c rest ih =>
    have hc : c ≠ '/' := fun hcc => h (hcc ▸ List.mem_cons_self c rest)
    have hrest := ih (fun hm => h (List.mem_cons_of_mem c hm))
    by_cases hn : c = '\n' <;> simp [lastSegSem, hn, hrest, hc]

theorem lastSegSem_cons_slash (rest : List Char) :
    ∃ g, lastSegSem ('/' :: rest) = some (some g) := by
  rcases lastSegSem_shape rest with h | ⟨g, h⟩
  · exact ⟨rest.takeWhile (fun x => x != '\n'), by simp [lastSegSem, h]⟩
  · exact ⟨g, by simp [lastSegSem, h]⟩

theorem lastSegSearch_shape (s : List Char) :
    lastSegSearch s = none ∨ ∃ g, lastSegSearch s = some (some g) := by
  induction s with
  | nil => left; rfl
  | cons c rest ih =>
    rcases lastSegSem_shape (c :: rest) with h | ⟨g, h⟩
    · rcases ih with h2 | ⟨g, h2⟩
      · left; simp [lastSegSearch, h, h2]
      · right; exact ⟨g, by simp [lastSegSearch, h, h2]⟩
    · right; exact ⟨g, by simp [lastSegSearch, h]⟩

theorem lastSegSearch_no_slash (s : List Char) (h : '/' ∉ s) :
    lastSegSearch s = none := by
  induction s with
  | nil => rfl
  | cons c rest ih =>
    have hsem := lastSegSem_no_slash (c :: rest) h
    have hrest := ih (fun hm => h (List.mem_cons_of_mem c hm))
    simp [lastSegSearch, hsem, hrest]

theorem lastSegSearch_slash (s : List Char) (hs : '/' ∈ s) :
    ∃ g, lastSegSearch s = some (some g) := by
  induction s with
  | nil => cases hs
  | cons c rest ih =>
    rcases lastSegSem_shape (c :: rest) with h | ⟨g, h⟩
    · have hc : c ≠ '/' := by
        intro hcc
        subst hcc
        obtain ⟨g, hg⟩ := lastSegSem_cons_slash rest
        rw [h] at hg
        cases hg
      have hrest : '/' ∈ rest := by
        rcases List.mem_cons.mp hs with h2 | h2
        · exact absurd h2.symm hc
        · exact h2
      obtain ⟨g, hg⟩ := ih hrest
      exact ⟨g, by simp [lastSegSearch, h, hg]⟩
    · exact ⟨g, by simp [lastSegSearch, h]⟩

theorem lastSegSem_no_newline (s : List Char) (h : '\n' ∉ s) :
    lastSegSem s = (if '/' ∈ s then some (some (afterLastSlash s)) else none) := by
  induction s with
  | nil => rfl
  | cons c rest ih
  =>
    have hc : c ≠ '\n' := fun hcc => h (hcc ▸ List.mem_cons_self c rest)
    have hrest := ih (fun hm => h (List.mem_cons_of_mem c hm))
    by_cases hs : '/' ∈ rest
    · have : afterLastSlash (c :: rest) = afterLastSlash rest := by
        simp [afterLastSlash, hs]
      simp [lastSegSem, hc, hrest, hs, this, List.mem_cons]
    · by_cases hcs : c = '/'
      · subst hcs
        have h1 : afterLastSlash ('/' :: rest) = rest := by
          simp [afterLastSlash, hs]
        have h2 : rest.takeWhile (fun x => x != '\n') = rest :=
          takeWhile_of_not_newline rest (fun hm => h (List.mem_cons_of_mem _ hm))
        simp [lastSegSem, hc, hrest, hs, h1, h2]
      · have hcs' : ¬ ('/' = c) := fun hh => hcs hh.symm
        simp [lastSegSem, hc, hrest, hs, hcs, hcs', List.mem_cons]

theorem lastSegSearch_no_newline (s : List Char) (h : '\n' ∉ s) (hs : '/' ∈ s) :
    lastSegSearch s = some (some (afterLastSlash s)) := by
  match s with
  | [] => cases hs
  | c :: rest =>
    have hsem := lastSegSem_no_newline (c :: rest) h
    rw [if_pos hs] at hsem
    simp [lastSegSearch, hsem]

theorem afterLastSlash_concat (t : List Char) : afterLastSlash (t ++ ['/']) = [] := by
  induction t with
  | nil => rfl
  | cons c t ih =>
    have hmem : '/' ∈ t ++ ['/'] := List.mem_append_right t (List.mem_singleton.mpr rfl)
    simp [afterLastSlash, hmem, ih]

theorem containsSeg_suffix (needle t s : List Char) (ht : t <:+ s)
    (h : containsSeg needle s = false) : isPre needle t = false := by
  induction s with
  | nil =>
    rw [List.suffix_nil.mp ht]
    exact h
  | cons c rest ih =>
    have h1 : isPre needle (c :: rest) = false ∧ containsSeg needle rest = false := by
      have := h
      simp only [containsSeg, Bool.or_eq_false_iff] at this
      exact this
    rcases List.suffix_cons_iff.mp ht with h2 | h2
    · rw [h2]; exact h1.1
    · exact ih h2 h1.2

theorem mat_litsThen_not_pre (cs : List Char) (p : Re) (t : List Char)
    (cap : Option (List Char))
    (k : List Char → Option (List Char) → Option (Option (List Char)))
    (f : Nat) (hf : 2 * cs.length + 1 ≤ f) (h : isPre cs t = false) :
    mat f (litsThen cs p) t cap k = none := by
  induction cs generalizing t f with
  | nil => cases h
  | cons c cs ih =>
    obtain ⟨f', rfl⟩ : ∃ f', f = f' + 1 := ⟨f - 1, by omega⟩
    obtain ⟨f'', rfl⟩ : ∃ f'', f' = f'' + 1 := ⟨f' - 1, by simp at hf; omega⟩
    show mat (f'' + 1) (.lit c) t cap
        (fun s2 c2 => mat (f'' + 1) (litsThen cs p) s2 c2 k) = none
    match t with
    | [] => rfl
    | x :: xs =>
      show (if x = c then mat (f'' + 1) (litsThen cs p) xs cap k else none) = none
      by_cases hx : x = c
      · rw [if_pos hx]
        have hpre : isPre cs xs = false := by
          have := h
          simp only [isPre, hx, Bool.and_eq_false_iff] at this
          rcases this with h2 | h2
          · simp at h2
          · exact h2
        exact ih xs (f'' + 1) (by simp at hf; omega) hpre
      · rw [if_neg hx]

theorem mat_issues_none (s : List Char) (f : Nat)
    (h : containsSeg "/issues/".data s = false) (hf : s.length + 20 ≤ f) :
    mat f issuesRe.re s none accept = none := by
  obtain ⟨f', rfl⟩ : ∃ f', f = f' + 1 := ⟨f - 1, by omega⟩
  show mat f' (.star .dot) s none
      (fun s2 c2 =>
        mat f' (litsThen "/issues/".data (.group (.plus .digit))) s2 c2 accept) = none
  rw [mat_starDot_eq s f' none _ (by omega)]
  exact starDotSem_none s none _ (fun t ht =>
    mat_litsThen_not_pre "/issues/".data _ t none accept f'
      (by simp; omega) (containsSeg_suffix _ t s ht h))

theorem searchFrom_issues_none (s : List Char) (f : Nat)
    (h : containsSeg "/issues/".data s = false) (hf : s.length + 20 ≤ f) :
    searchFrom f issuesRe.re s = none := by
  induction s with
  | nil =>
    show mat f issuesRe.re [] none accept = none
    exact mat_issues_none [] f h (by simp at hf ⊢; omega)
  | cons c rest ih =>
    show (match mat f issuesRe.re (c :: rest) none accept with
          | some cap => some cap
          | none => searchFrom f issuesRe.re rest) = none
    rw [mat_issues_none (c :: rest) f h hf]
    have hrest : containsSeg "/issues/".data rest = false := by
      have := h
      simp only [containsSeg, Bool.or_eq_false_iff] at this
      exact this.2
    rw [ih hrest (by simp at hf ⊢; omega)]

theorem reSearch_issues_none (s : List Char)
    (h : containsSeg "/issues/".data s = false) :
    reSearch issuesRe.re s = none := by
  have hsize : reSize issuesRe.re = 23 := rfl
  exact searchFrom_issues_none s _ h (by simp [reFuel, hsize]; omega)

theorem pyOrStr_truthy (a b : Option String) (h : truthyOpt a = true) : pyOrStr a b = a := by
  match a with
  | none => cases h
  | some s =>
    have hs : s ≠ "" := by simpa [truthyOpt] using h
    simp [pyOrStr, hs]

theorem pyOrStr_falsy (a b : Option String) (h : truthyOpt a = false) : pyOrStr a b = b := by
  match a with
  | none => rfl
  | some s =>
    have hs : s = "" := by simpa [truthyOpt] using h
    simp [pyOrStr, hs]

theorem pyOrRegex_truthy (a b : Option RegexVal)
    (h : a.elim false RegexVal.truthy = true) : pyOrRegex a b = a := by
  match a with
  | none => cases h
  | some v => simp [pyOrRegex, show v.truthy = true from h]

theorem pyOrRegex_falsy (a b : Option RegexVal)
    (h : a.elim false RegexVal.truthy = false) : pyOrRegex a b = b := by
  match a with
  | none => rfl
  | some v => simp [pyOrRegex, show v.truthy = false from h]

theorem truthyOpt_some (o : Option String) (h : truthyOpt o = true) :
    ∃ r, o = some r ∧ r ≠ "" := by
  match o with
  | none => cases h
  | some s => exact ⟨s, rfl, by simpa [truthyOpt] using h⟩

theorem validate_ok_inv (env : Env) (cfg cfg' : TicketConfig)
    (h : cfg.validate env = .ok cfg') :
    cfg' = cfg ∧ truthyOpt cfg.remote_repository_url = true ∧
      cfg.branch_name_regex.elim false RegexVal.truthy = true ∧
      (∃ p, cfg.local_repository_parent_dir = some p) ∧
      (∃ f, cfg.ticket_file_path = some f) := by
  unfold TicketConfig.validate at h
  split_ifs at h with h1 h2
  split at h
  · exact absurd h (by simp)
  · rename_i p hp
    split_ifs at h with h3
    split at h
    · exact absurd h (by simp)
    · rename_i f hf
      split_ifs at h with h4
      have hcc : cfg = cfg' := by injection h
      subst hcc
      exact ⟨rfl, h1, h2, ⟨p, hp⟩, ⟨f, hf⟩⟩

theorem get_config_ok_inv (env : Env) (args : Args) (cfg : TicketConfig)
    (h : get_config env args = .ok cfg) :
    (∃ file_cfg, load_config env.compile env.store = some file_cfg ∧
      (TicketConfig.combine env.home file_cfg (parse_args args)).validate env = .ok cfg) ∧
    truthyOpt cfg.remote_repository_url = true ∧
      cfg.branch_name_regex.elim false RegexVal.truthy = true ∧
      (∃ p, cfg.local_repository_parent_dir = some p) ∧
      (∃ f, cfg.ticket_file_path = some f) := by
  unfold get_config at h
  split at h
  · exact absurd h (by simp)
  · rename_i file_cfg hload
    split at h
    · exact absurd h (by simp)
    · rename_i cfg0 hval
      have hcc : cfg0 = cfg := by injection h
      subst hcc
      obtain ⟨heq, h2, h3, h4, h5⟩ := validate_ok_inv env _ _ hval
      subst heq
      exact ⟨⟨file_cfg, hload, hval⟩, h2, h3, h4, h5⟩

theorem run_git_no_none (o : Bool) (st : String) (args : List (Option String))
    (so : Bool) (h : args.contains none = false) :
    run_git o st args so =
      (if o = false ∧ so = true then [.printed ("error: " ++ st)] else [], .ok o) := by
  unfold run_git
  rw [if_neg (by simpa using h)]
  cases o <;> cases so <;> simp

theorem clone_repository_eq (o : Bool) (st : String) (r : String) (pd : Option String) :
    clone_repository o st (some r) pd =
      ([.printed "attempting to clone repository...", .cloneCall (some r) pd], .ok o) := by
  unfold clone_repository
  rw [run_git_no_none o st _ false (by simp)]
  simp

theorem repoDirOf_eq (r : String) (pd : String) (g : List Char)
    (hg : reSearch lastSegRe.re r.data = some (some g)) :
    repoDirOf (some r) (some pd) = .ok (pathJoin pd (String.mk g)) := by
  simp [repoDirOf, hg]

theorem pull_repository_eq (o : Bool) (st : String) (r : String) (pd : String)
    (g : List Char) (hg : reSearch lastSegRe.re r.data = some (some g)) :
    pull_repository o st (some r) (some pd) =
      ([.printed "attempting to pull repository...", .pullCall (some r) (some pd)], .ok o) := by
  unfold pull_repository
  rw [repoDirOf_eq r pd g hg]
  rw [run_git_no_none o st _ false (by simp)]
  simp

theorem checkout_branch_some_eq (o : Bool) (st : String) (r : String) (b : String)
    (pd : String) (g : List Char) (hg : reSearch lastSegRe.re r.data = some (some g)) :
    checkout_branch o st (some r) (some b) (some pd) =
      ([Event.checkoutCall (some b) (some r) (some pd)] ++
        (if o then [] else [.printed ("error: " ++ st)]), .ok o) := by
  unfold checkout_branch
  rw [repoDirOf_eq r pd g hg]
  rw [run_git_no_none o st _ true (by simp)]
  cases o <;> simp

theorem checkout_branch_none_eq (o : Bool) (st : String) (r : String) (pd : String)
    (g : List Char) (hg : reSearch lastSegRe.re r.data = some (some g)) :
    checkout_branch o st (some r) none (some pd) =
      ([Event.checkoutCall none (some r) (some pd)], .error .attributeError) := by
  unfold checkout_branch
  rw [repoDirOf_eq r pd g hg]
  unfold run_git
  rw [if_pos (by simp)]
  simp

theorem create_branch_eq (o : Bool) (st : String) (r : String) (b : String)
    (pd : String) (g : List Char) (hg : reSearch lastSegRe.re r.data = some (some g)) :
    create_branch o st (some r) b (some pd) =
      ([Event.createCall b (some r) (some pd)] ++
        (if o then [] else [.printed ("error: " ++ st)]), .ok o) := by
  unfold create_branch
  rw [repoDirOf_eq r pd g hg]
  rw [run_git_no_none o st _ true (by simp)]
  cases o <;> simp

theorem get_source_dir_eq (cfg : TicketConfig) (r : String) (p : String) (g : List Char)
    (hr : cfg.remote_repository_url = some r)
    (hp : cfg.local_repository_parent_dir = some p)
    (hg : reSearch lastSegRe.re r.data = some (some g)) :
    cfg.get_source_dir = .ok (pathJoin p (String.mk g)) := by
  simp [TicketConfig.get_source_dir, hr, hg, hp]

theorem mainRun_eq (env : Env) (args : Args) (cfg : TicketConfig) (bn : String)
    (r p f : String) (g : List Char)
    (hc : get_config env args = .ok cfg)
    (hb : cfg.get_branch_name = .ok bn)
    (hr : cfg.remote_repository_url = some r)
    (hp : cfg.local_repository_parent_dir = some p)
    (hf : cfg.ticket_file_path = some f)
    (hg : reSearch lastSegRe.re r.data = some (some g)) :
    mainRun env args =
      ([Event.printed "attempting to clone repository...",
        Event.cloneCall (some r) (some p)] ++
       (if env.cloneOk then []
        else [Event.printed "attempting to pull repository...",
              Event.pullCall (some r) (some p)]) ++
       (match cfg.main_branch_name with
        | none => [Event.checkoutCall none (some r) (some p)]
        | some m =>
          ([Event.checkoutCall (some m) (some r) (some p)] ++
            (if env.checkoutMainOk then []
             else [Event.printed ("error: " ++ env.gitStderrText)])) ++
          ([Event.createCall bn (some r) (some p)] ++
            (if env.createOk then []
             else [Event.printed ("error: " ++ env.gitStderrText)])) ++
          (if env.createOk then []
           else [Event.checkoutCall (some bn) (some r) (some p)] ++
             (if env.checkoutTicketOk then []
              else [Event.printed ("error: " ++ env.gitStderrText)])) ++
          [Event.appendCall f
            (ticketRecord bn (pathJoin p (String.mk g)) cfg.ticket_url (some r)),
           Event.printed ("updated: " ++ f)]),
       match cfg.main_branch_name with
       | none => MainOutcome.caught .attributeError
       | some _ => MainOutcome.finished) := by
  have Hpull : ∀ o st, pull_repository o st (some r) (some p) =
      ([.printed "attempting to pull repository...",
        .pullCall (some r) (some p)], .ok o) :=
    fun o st => pull_repository_eq o st r p g hg
  have Hco : ∀ o st b, checkout_branch o st (some r) (some b) (some p) =
      ([Event.checkoutCall (some b) (some r) (some p)] ++
        (if o then [] else [.printed ("error: " ++ st)]), .ok o) :=
    fun o st b => checkout_branch_some_eq o st r b p g hg
  have Hcon : ∀ o st, checkout_branch o st (some r) none (some p) =
      ([Event.checkoutCall none (some r) (some p)], .error .attributeError) :=
    fun o st => checkout_branch_none_eq o st r p g hg
  have Hcr : ∀ o st b, create_branch o st (some r) b (some p) =
      ([Event.createCall b (some r) (some p)] ++
        (if o then [] else [.printed ("error: " ++ st)]), .ok o) :=
    fun o st b => create_branch_eq o st r b p g hg
  have Hsd : cfg.get_source_dir = .ok (pathJoin p (String.mk g)) :=
    get_source_dir_eq cfg r p g hr hp hg
  cases hm : cfg.main_branch_name with
  | none =>
    cases hcl : env.cloneOk <;>
      simp [mainRun, hc, hb, hr, hp, hf, hm, hcl, clone_repository_eq,
            Hpull, Hcon, Hsd, append_to_ticket_file]
  | some m =>
    cases hcl : env.cloneOk <;> cases hcr : env.createOk <;>
      simp [mainRun, hc, hb, hr, hp, hf, hm, hcl, hcr, clone_repository_eq,
            Hpull, Hco, Hcon, Hcr, Hsd, append_to_ticket_file]

/-- C1 (counterexample): in the run with store `storeC1` (whose
`ticket_url` is set) and arguments supplying a different, non-empty
`--ticket-url`, the merged configuration holds the *file* value, not the
invocation-time override, refuting the claimed override precedence. -/
theorem C1_counterexample :
    (parse_args argsC1).ticket_url = some "https://cli-ticket/issues/2" ∧
    truthyOpt (parse_args argsC1).ticket_url = true ∧
    (get_config envC1 argsC1).toOption.map TicketConfig.ticket_url =
      some (some "https://file-ticket/issues/1") ∧
    ("https://file-ticket/issues/1" : String) ≠ "https://cli-ticket/issues/2" := by
  decide

/-- C1 (amended): `get_config` merges with the *persistent (file)*
configuration as the winning side: for every field, if the file value is
present and non-empty (truthy) the merged configuration holds the file
value (path fields after home expansion); only if the file value is
absent or empty does the merged configuration hold the invocation-time
value (path fields after home expansion). -/
theorem C1_file_precedence (home : String) (lhs rhs : TicketConfig) :
    (truthyOpt lhs.ticket_url = true →
      (TicketConfig.combine home lhs rhs).ticket_url = lhs.ticket_url) ∧
    (truthyOpt lhs.ticket_url = false →
      (TicketConfig.combine home lhs rhs).ticket_url = rhs.ticket_url) ∧
    (truthyOpt lhs.remote_repository_url = true →
      (TicketConfig.combine home lhs rhs).remote_repository_url =
        lhs.remote_repository_url) ∧
    (truthyOpt lhs.remote_repository_url = false →
      (TicketConfig.combine home lhs rhs).remote_repository_url =
        rhs.remote_repository_url) ∧
    (truthyOpt lhs.main_branch_name = true →
      (TicketConfig.combine home lhs rhs).main_branch_name = lhs.main_branch_name) ∧
    (truthyOpt lhs.main_branch_name = false →
      (TicketConfig.combine home lhs rhs).main_branch_name = rhs.main_branch_name) ∧
    (lhs.branch_name_regex.elim false RegexVal.truthy = true →
      (TicketConfig.combine home lhs rhs).branch_name_regex = lhs.branch_name_regex) ∧
    (lhs.branch_name_regex.elim false RegexVal.truthy = false →
      (TicketConfig.combine home lhs rhs).branch_name_regex = rhs.branch_name_regex) ∧
    (truthyOpt lhs.local_repository_parent_dir = true →
      (TicketConfig.combine home lhs rhs).local_repository_parent_dir =
        lhs.local_repository_parent_dir.map (expanduser home)) ∧
    (truthyOpt lhs.local_repository_parent_dir = false →
      (TicketConfig.combine home lhs rhs).local_repository_parent_dir =
        rhs.local_repository_parent_dir.map (expanduser home)) ∧
    (truthyOpt lhs.ticket_file_path = true →
      (TicketConfig.combine home lhs rhs).ticket_file_path =
        lhs.ticket_file_path.map (expanduser home)) ∧
    (truthyOpt lhs.ticket_file_path = false →
      (TicketConfig.combine home lhs rhs).ticket_file_path =
        rhs.ticket_file_path.map (expanduser home)) := by
  refine ⟨?_, ?_, ?_, ?_, ?_, ?_, ?_, ?_, ?_, ?_, ?_, ?_⟩ <;> intro h <;>
    simp [TicketConfig.combine, pyOrStr_truthy, pyOrStr_falsy,
          pyOrRegex_truthy, pyOrRegex_falsy, h]

/-- C1 (amended, witness): file precedence at the concrete C1 run data. -/
theorem C1_file_precedence_witness :
    (TicketConfig.combine "/home/u" cfgC8 cfgC9).ticket_url = cfgC8.ticket_url :=
  (C1_file_precedence "/home/u" cfgC8 cfgC9).1 (by decide)

/-- C2: the loader reads the `main_branch_name` field from the key
`remote_repository_url` (src/tkt.py line 118), not from `main_branch_name`:
on a store whose `[main]` section sets `main_branch_name=develop` (and no
`remote_repository_url`), the loaded field is absent; on a store that sets
only `remote_repository_url`, the loaded field holds that URL. -/
theorem C2_main_branch_key :
    storeC2a "main_branch_name" = some "develop" ∧
    (load_config compileIssues (some storeC2a)).map TicketConfig.main_branch_name =
      some none ∧
    storeC2b "main_branch_name" = none ∧
    (load_config compileIssues (some storeC2b)).map TicketConfig.main_branch_name =
      some (some "https://host/r") := by
  decide

/-- C3 (counterexample): appending the record for concrete arguments to a
file with contents `"X"` yields exactly the four newline-terminated lines
appended at the end — which differs from a block followed by a trailing
blank separator line (the same text with one more newline). -/
theorem C3_counterexample :
    (append_to_ticket_file "X" (some "/t.org") (some "https://host/my-repo")
        "4821" (some "https://t/issues/4821") "/repos/my-repo").map Prod.fst =
      .ok ("X" ++ "** TODO Ticket: 4821\n   Source: /repos/my-repo\n   Ticket: https://t/issues/4821\n   Remote: https://host/my-repo\n") ∧
    ("X" ++ "** TODO Ticket: 4821\n   Source: /repos/my-repo\n   Ticket: https://t/issues/4821\n   Remote: https://host/my-repo\n" : String) ≠
      "X" ++ "** TODO Ticket: 4821\n   Source: /repos/my-repo\n   Ticket: https://t/issues/4821\n   Remote: https://host/my-repo\n" ++ "\n" := by
  decide

/-- C3 (amended): every record the appender writes is the fixed
*four-line* block (each line newline-terminated, with no additional blank
separator line) appended at the end of the existing contents; appending
twice for the same ticket yields two adjacent blocks with no
deduplication. -/
theorem C3_append_format :
    (∀ (c path : String) (ru : Option String) (tn : String) (tu : Option String)
        (sd : String),
      append_to_ticket_file c (some path) ru tn tu sd =
        .ok (c ++ ticketRecord tn sd tu ru,
          [.appendCall path (ticketRecord tn sd tu ru),
           .printed ("updated: " ++ path)])) ∧
    (splitNl (ticketRecord "4821" "/repos/my-repo" (some "https://t/issues/4821")
        (some "https://host/my-repo")).data =
      ["** TODO Ticket: 4821".data, "   Source: /repos/my-repo".data,
       "   Ticket: https://t/issues/4821".data, "   Remote: https://host/my-repo".data,
       []]) ∧
    (∀ (c path : String) (ru : Option String) (tn : String) (tu : Option String)
        (sd : String),
      (append_to_ticket_file c (some path) ru tn tu sd).bind
          (fun res => (append_to_ticket_file res.1 (some path) ru tn tu sd).map
            Prod.fst) =
        .ok (c ++ ticketRecord tn sd tu ru ++ ticketRecord tn sd tu ru)) := by
  refine ⟨fun c path ru tn tu sd => rfl, by decide, fun c path ru tn tu sd => rfl⟩

/-- C3 (amended, witness): the append equation at concrete inputs. -/
theorem C3_append_format_witness :
    append_to_ticket_file "X" (some "/t.org") (some "https://host/my-repo") "4821"
        (some "https://t/issues/4821") "/repos/my-repo" =
      .ok ("X" ++ ticketRecord "4821" "/repos/my-repo" (some "https://t/issues/4821")
            (some "https://host/my-repo"),
        [.appendCall "/t.org" (ticketRecord "4821" "/repos/my-repo"
            (some "https://t/issues/4821") (some "https://host/my-repo")),
         .printed ("updated: " ++ "/t.org")]) :=
  C3_append_format.1 "X" "/t.org" (some "https://host/my-repo") "4821"
    (some "https://t/issues/4821") "/repos/my-repo"

/-- C4: `validate` is fail-fast in the fixed order remote-URL, branch
pattern, parent directory existence, ticket file existence: whatever the
state of the later checks, the reported error is the first failing
check's, and a run with all checks passing returns the configuration
unchanged (one `Except` value means exactly one error per call). -/
theorem C4_validate_fail_fast (env : Env) (cfg : TicketConfig) (p f : String)
    (hp : cfg.local_repository_parent_dir = some p)
    (hf : cfg.ticket_file_path = some f) :
    (truthyOpt cfg.remote_repository_url = false →
      cfg.validate env = .error (.exc "remote_repository_url was not configured")) ∧
    (truthyOpt cfg.remote_repository_url = true →
      cfg.branch_name_regex.elim false RegexVal.truthy = false →
      cfg.validate env = .error (.exc "branch_name_regex was not configured")) ∧
    (truthyOpt cfg.remote_repository_url = true →
      cfg.branch_name_regex.elim false RegexVal.truthy = true →
      env.isDir (expanduser env.home p) = false →
      cfg.validate env = .error (.exc ("directory not found: " ++ p ++ "."))) ∧
    (truthyOpt cfg.remote_repository_url = true →
      cfg.branch_name_regex.elim false RegexVal.truthy = true →
      env.isDir (expanduser env.home p) = true →
      env.isFile (expanduser env.home f) = false →
      cfg.validate env = .error (.exc ("file not found: " ++ f ++ "."))) ∧
    (truthyOpt cfg.remote_repository_url = true →
      cfg.branch_name_regex.elim false RegexVal.truthy = true →
      env.isDir (expanduser env.home p) = true →
      env.isFile (expanduser env.home f) = true →
      cfg.validate env = .ok cfg) := by
  refine ⟨?_, ?_, ?_, ?_, ?_⟩ <;> intros <;>
    simp_all [TicketConfig.validate, hp, hf]

/-- C4 (witness): on a configuration where every check fails at once, the
single reported error is the missing remote URL, the first check. -/
theorem C4_validate_fail_fast_witness :
    cfgC4.validate envFalse = .error (.exc "remote_repository_url was not configured") :=
  (C4_validate_fail_fast envFalse cfgC4 "/nowhere" "/missing.org" rfl rfl).1 rfl

/-- C5: `get_branch_name` returns the captured group when the configured
pattern matches the ticket URL with a non-empty group, and otherwise
raises the extraction error carrying the pattern source and the URL; in
particular `.*/issues/(\d+)` on `https://tracker.example.com/issues/4821`
yields `4821`, and on every URL not containing `/issues/` it fails with
that extraction error. -/
theorem C5_branch_extraction :
    (∀ (cfg : TicketConfig) (pt : RePattern) (url : String) (g : List Char),
      cfg.branch_name_regex = some (.compiled pt) → cfg.ticket_url = some url →
      reSearch pt.re url.data = some (some g) → g ≠ [] →
      cfg.get_branch_name = .ok (String.mk g)) ∧
    (∀ (cfg : TicketConfig) (pt : RePattern) (url : String),
      cfg.branch_name_regex = some (.compiled pt) → cfg.ticket_url = some url →
      (reSearch pt.re url.data = none ∨ reSearch pt.re url.data = some none ∨
        reSearch pt.re url.data = some (some [])) →
      cfg.get_branch_name = .error (.exc ("the regex '" ++ pt.pattern ++
        "' did not match the ticket URL: '" ++ url ++ "'"))) ∧
    cfgC5.get_branch_name = .ok "4821" ∧
    (∀ (cfg : TicketConfig) (url : String),
      cfg.branch_name_regex = some (.compiled issuesRe) → cfg.ticket_url = some url →
      containsSeg "/issues/".data url.data = false →
      cfg.get_branch_name = .error (.exc ("the regex '" ++ issuesRe.pattern ++
        "' did not match the ticket URL: '" ++ url ++ "'"))) := by
  refine ⟨?_, ?_, by decide, ?_⟩
  · intro cfg pt url g hb hu hs hg
    simp [TicketConfig.get_branch_name, hb, hu, hs, hg]
  · intro cfg pt url hb hu hs
    rcases hs with hs | hs | hs <;>
      simp [TicketConfig.get_branch_name, hb, hu, hs]
  · intro cfg url hb hu hns
    have hs := reSearch_issues_none url.data hns
    simp [TicketConfig.get_branch_name, hb, hu, hs]

/-- C5 (witness): the extraction error on the concrete URL
`https://tracker.example.com/pulls/4821`, which has no `/issues/`. -/
theorem C5_branch_extraction_witness :
    cfgC5b.get_branch_name = .error (.exc ("the regex '" ++ issuesRe.pattern ++
      "' did not match the ticket URL: '" ++
      "https://tracker.example.com/pulls/4821" ++ "'")) :=
  C5_branch_extraction.2.2.2 cfgC5b "https://tracker.example.com/pulls/4821"
    rfl rfl (by decide)

/-- C6: extraction is a pure Lean function, so two applications to the
same pattern and input are definitionally equal; the fixed pattern
`.*/(.*)` on `https://example.com/proj/my-repo` captures the last path
segment `my-repo`, and the derived source directory is the parent joined
with it. -/
theorem C6_extraction_deterministic :
    (∀ (r : Re) (s : List Char), reSearch r s = reSearch r s) ∧
    reSearch lastSegRe.re "https://example.com/proj/my-repo".data =
      some (some "my-repo".data) ∧
    cfgC6.get_source_dir = .ok "/repos/my-repo" := by
  exact ⟨fun r s => rfl, by decide, by decide⟩

/-- C6 (witness): determinism instantiated at the example pattern/URL. -/
theorem C6_extraction_deterministic_witness :
    reSearch lastSegRe.re "https://example.com/proj/my-repo".data =
      reSearch lastSegRe.re "https://example.com/proj/my-repo".data :=
  C6_extraction_deterministic.1 lastSegRe.re "https://example.com/proj/my-repo".data

/-- C7: a configuration load/validation failure makes the process exit
with the non-zero status 1 before any event (no repository mutation); an
error raised by the main workflow after configuration succeeded is caught,
a diagnostic is printed, and `main` returns normally, so the process exit
status is 0 — no distinguishing failure code. -/
theorem C7_exit_status (env : Env) (args : Args) :
    (∀ n, get_config env args = .error n →
      n ≠ 0 ∧ mainRun env args = ([], .exited n)) ∧
    (∀ e, (mainRun env args).2 = .caught e → (mainRun env args).2.exitCode = 0) := by
  constructor
  · intro n h
    constructor
    · unfold get_config at h
      split at h
      · injection h with h
        omega
      · split at h
        · injection h with h
          omega
        · cases h
    · simp [mainRun, h]
  · intro e h
    rw [h]
    rfl

/-- C7 (witness): with a missing configuration store the run exits with
status 1 and an empty event trace. -/
theorem C7_exit_status_witness :
    mainRun envFalse argsC1 = ([], .exited 1) :=
  ((C7_exit_status envFalse argsC1).1 1 (by decide)).2

/-- C8 (counterexample): a run whose configuration validates and whose
branch-name extraction succeeds, but whose `main_branch_name` is absent:
`checkout_branch` passes `None` to the git invocation, the raised error
escapes `run_git`'s handler (`result.stderr` on `result = None`), the
top-level handler catches it, and the ticket-log append step is never
executed. -/
theorem C8_counterexample :
    get_config envC8 argsC8 = .ok cfgC8 ∧
    cfgC8.get_branch_name = .ok "7" ∧
    mainRun envC8 argsC8 =
      ([.printed "attempting to clone repository...",
        .cloneCall (some "https://host/repo") (some "/repos"),
        .checkoutCall none (some "https://host/repo") (some "/repos")],
       .caught .attributeError) ∧
    (mainRun envC8 argsC8).1.any Event.isAppend = false := by
  decide

/-- C8 (amended): in every run in which configuration validation and
branch-name extraction succeed, the main branch name is present, and the
remote URL contains a `/` (so the repository-directory derivation cannot
raise), the ticket-log append step is executed and the run finishes
normally regardless of the success or failure of the clone, pull,
mainline-checkout, branch-create and branch-checkout operations. -/
theorem C8_append_reached (env : Env) (args : Args) (cfg : TicketConfig)
    (bn r m : String)
    (hc : get_config env args = .ok cfg)
    (hb : cfg.get_branch_name = .ok bn)
    (hr : cfg.remote_repository_url = some r)
    (hs : '/' ∈ r.data)
    (hm : cfg.main_branch_name = some m) :
    (mainRun env args).1.any Event.isAppend = true ∧
    (mainRun env args).2 = .finished := by
  obtain ⟨-, -, -, ⟨p, hp⟩, ⟨f, hf⟩⟩ := get_config_ok_inv env args cfg hc
  obtain ⟨g, hg⟩ : ∃ g, reSearch lastSegRe.re r.data = some (some g) := by
    rw [reSearch_lastSeg]
    exact lastSegSearch_slash r.data hs
  rw [mainRun_eq env args cfg bn r p f g hc hb hr hp hf hg]
  simp [hm, Event.isAppend]

/-- C8 (amended, witness): with every git operation failing — including
both branch creation and branch checkout — the append step still runs. -/
theorem C8_append_reached_witness :
    (mainRun envC8w argsC8w).1.any Event.isAppend = true ∧
    (mainRun envC8w argsC8w).2 = .finished :=
  C8_append_reached envC8w argsC8w cfgC8w "7" "https://host/repo" "main"
    (by decide) (by decide) rfl (by decide) rfl

/-- C9 (counterexample): with a remote URL containing no `/`, a failing
clone leads into `pull_repository`, whose repository-directory regex
search returns no match and `.group(1)` raises; the run aborts and the
mainline checkout step is never attempted, refuting "the driver proceeds
to the next step regardless of whether the pull succeeds or fails". -/
theorem C9_counterexample :
    get_config envC9 argsC9 = .ok cfgC9 ∧
    cfgC9.get_branch_name = .ok "7" ∧
    mainRun envC9 argsC9 =
      ([.printed "attempting to clone repository...",
        .cloneCall (some "repo") (some "/repos"),
        .printed "attempting to pull repository...",
        .pullCall (some "repo") (some "/repos")],
       .caught .attributeError) ∧
    (mainRun envC9 argsC9).1.any Event.isCheckout = false := by
  decide

/-- C9 (amended): in every run that reaches the repository steps and whose
remote URL contains a `/`, the driver first attempts the clone; the pull
is attempted exactly when the clone fails; a failing clone emits no error
diagnostic (`show_error_output=False`); and the mainline checkout is
attempted regardless of the pull's outcome. -/
theorem C9_ensure_present (env : Env) (args : Args) (cfg : TicketConfig)
    (bn r : String)
    (hc : get_config env args = .ok cfg)
    (hb : cfg.get_branch_name = .ok bn)
    (hr : cfg.remote_repository_url = some r)
    (hs : '/' ∈ r.data) :
    Event.cloneCall (some r) cfg.local_repository_parent_dir ∈ (mainRun env args).1 ∧
    (Event.pullCall (some r) cfg.local_repository_parent_dir ∈ (mainRun env args).1 ↔
      env.cloneOk = false) ∧
    (∀ st pd, clone_repository false st (some r) pd =
      ([.printed "attempting to clone repository...", .cloneCall (some r) pd],
       .ok false)) ∧
    Event.checkoutCall cfg.main_branch_name (some r) cfg.local_repository_parent_dir ∈
      (mainRun env args).1 := by
  obtain ⟨-, -, -, ⟨p, hp⟩, ⟨f, hf⟩⟩ := get_config_ok_inv env args cfg hc
  obtain ⟨g, hg⟩ : ∃ g, reSearch lastSegRe.re r.data = some (some g) := by
    rw [reSearch_lastSeg]
    exact lastSegSearch_slash r.data hs
  rw [mainRun_eq env args cfg bn r p f g hc hb hr hp hf hg, hp]
  refine ⟨by simp, ?_, fun st pd => clone_repository_eq false st r pd, ?_⟩
  · cases hm : cfg.main_branch_name <;> cases hcl : env.cloneOk <;>
      cases hcm : env.checkoutMainOk <;> cases hcr : env.createOk <;>
      cases hct : env.checkoutTicketOk <;> simp
  · cases hm : cfg.main_branch_name <;> simp

/-- C9 (amended, witness): in the all-operations-fail run with a
slash-containing remote, the clone is attempted, the pull is attempted
(clone failed), and the mainline checkout is still attempted. -/
theorem C9_ensure_present_witness :
    Event.cloneCall (some "https://host/repo") cfgC8w.local_repository_parent_dir ∈
      (mainRun envC8w argsC8w).1 ∧
    (Event.pullCall (some "https://host/repo") cfgC8w.local_repository_parent_dir ∈
      (mainRun envC8w argsC8w).1 ↔ envC8w.cloneOk = false) ∧
    Event.checkoutCall cfgC8w.main_branch_name (some "https://host/repo")
        cfgC8w.local_repository_parent_dir ∈ (mainRun envC8w argsC8w).1 :=
  match C9_ensure_present envC8w argsC8w cfgC8w "7" "https://host/repo"
    (by decide) (by decide) rfl (by decide) with
  | ⟨h1, h2, _, h4⟩ => ⟨h1, h2, h4⟩

/-- C10 (counterexample): the validated configuration `cfgC10` has a
remote URL that contains `/`, ends with `/` — and also contains a
newline; `.` does not match a newline, so the captured group is the
non-empty `b` and `get_source_dir` returns `/p/b`, not the parent
directory itself. -/
theorem C10_counterexample :
    cfgC10.validate envTrue = .ok cfgC10 ∧
    ("a/b\nc/".data.contains '/') = true ∧
    "a/b\nc/".data.getLast? = some '/' ∧
    cfgC10.get_source_dir = .ok "/p/b" ∧
    ("/p/b" : String) ≠ "/p" := by
  decide

/-- C10 (amended): for every validated configuration whose remote URL
contains no newline and ends with `/`, the directory pattern's capture is
the empty last segment and `get_source_dir` does not fail: it returns the
parent directory joined with the empty segment, i.e. the parent directory
itself. -/
theorem C10_trailing_slash (env : Env) (cfg : TicketConfig) (p : String)
    (t : List Char)
    (_hval : cfg.validate env = .ok cfg)
    (hp : cfg.local_repository_parent_dir = some p)
    (hr : cfg.remote_repository_url = some (String.mk (t ++ ['/'])))
    (hn : '\n' ∉ t) :
    cfg.get_source_dir = .ok (pathJoin p "") ∧ pathJoin p "" = p := by
  have hmem : '/' ∈ t ++ ['/'] := List.mem_append_right t (List.mem_singleton.mpr rfl)
  have hnl : '\n' ∉ t ++ ['/'] := by
    intro hmm
    rcases List.mem_append.mp hmm with h | h
    · exact hn h
    · simp at h
  have hg : reSearch lastSegRe.re (String.mk (t ++ ['/'])).data = some (some []) := by
    show reSearch lastSegRe.re (t ++ ['/']) = some (some [])
    rw [reSearch_lastSeg, lastSegSearch_no_newline _ hnl hmem, afterLastSlash_concat]
  have hres := get_source_dir_eq cfg (String.mk (t ++ ['/'])) p [] hr hp hg
  constructor
  · rw [hres]
  · rfl

/-- C10 (amended, witness): remote `a/b/` yields the parent `/p` itself. -/
theorem C10_trailing_slash_witness :
    cfgC10w.get_source_dir = .ok (pathJoin "/p" "") ∧ pathJoin "/p" "" = "/p" :=
  C10_trailing_slash envTrue cfgC10w "/p" "a/b".data (by decide) rfl (by decide)
    (by decide)
